import Mathlib

/-!
Shallow embedding of the WS2812B transmitter (`src/pwm.h`, the revision with
the reentrancy guard, `TickResult::Locked` and `T_RES = 50e-6f`).

Modelling conventions:
* the `float` protocol constants are modelled as exact rationals;
* `uint32_t` / `uint8_t` arithmetic is modelled on `Nat` with explicit
  `% 2^32` / `% 256` where the source can wrap;
* `Color*` pointers are modelled as integers counting in `Color` units, and
  dereferencing goes through an explicit read-only memory `mem : Int → Color`;
* the `union`-based byte overlay in `Color::into_32_bit` is modelled as the
  little-endian byte composition it performs on the AVR/ARM targets of the
  header;
* `digitalWrite` / `pinMode` are external effects with no feedback into the
  state, so they do not appear in the state transition.
-/

namespace WS2812B

/-- Duration of "0 code, high voltage": `0.4e-6` seconds. -/
def T0H : ℚ := 4 / 10000000

/-- Duration of "1 code, high voltage": `0.8e-6` seconds. -/
def T1H : ℚ := 8 / 10000000

/-- Duration of "0 code, low voltage": `0.85e-6` seconds. -/
def T0L : ℚ := 85 / 100000000

/-- Duration of "1 code, low voltage": `0.45e-6` seconds. -/
def T1L : ℚ := 45 / 100000000

/-- Tolerated deviation of the four bit-phase durations: `150e-9` seconds. -/
def T_ERROR : ℚ := 150 / 1000000000

/-- Duration of the reset code (low voltage): `50e-6` seconds. -/
def T_RES : ℚ := 50 / 1000000

/-- Embeds `check_duration(required, tested)` from the source:
`tested >= required - T_ERROR && tested <= required + T_ERROR`. -/
def check_duration (required tested : ℚ) : Prop :=
  tested ≥ required - T_ERROR ∧ tested ≤ required + T_ERROR

instance (required tested : ℚ) : Decidable (check_duration required tested) :=
  instDecidableAnd

/-- Embeds `struct Color`: three `uint8_t` channels. -/
structure Color where
  r : Fin 256
  g : Fin 256
  b : Fin 256
deriving DecidableEq, Repr

/-- Embeds `Color::into_32_bit`: the union writes the bytes `r, g, b, 0` into
the four bytes of a `uint32_t`; on the little-endian targets this is the value
`r + 256*g + 65536*b` (the top byte is forced to zero). -/
def Color.into_32_bit (c : Color) : Nat :=
  c.r.val + 256 * c.g.val + 65536 * c.b.val

/-- Embeds `Transmitter::process_rgb`: swap `r` and `g`, then `into_32_bit`. -/
def process_rgb (c : Color) : Nat :=
  Color.into_32_bit { r := c.g, g := c.r, b := c.b }

/-- Embeds `enum class TickResult`. -/
inductive TickResult where
  | Ok
  | Finished
  | Locked
deriving DecidableEq, Repr

/-- Embeds the array `uint32_t tick_counts[5]`, ordered `{0L, 0H, 1L, 1H, RESET}`. -/
structure TickCounts where
  c0L : Nat
  c0H : Nat
  c1L : Nat
  c1H : Nat
  cRES : Nat
deriving DecidableEq, Repr

/-- Array indexing `tick_counts[i]` for the indices the source uses (0..4). -/
def TickCounts.get (t : TickCounts) : Nat → Nat
  | 0 => t.c0L
  | 1 => t.c0H
  | 2 => t.c1L
  | 3 => t.c1H
  | _ => t.cRES

/-- Embeds the fields of `class Transmitter`.  The `ColorBuffer` member is
flattened into its `start` / `end` pointers (`bufStart` / `bufEnd`). -/
structure TxState where
  tick_counts : TickCounts
  pin : Int
  bufStart : Int
  bufEnd : Int
  lock_count : Nat
  flag_start : Bool
  flag_resetting : Bool
  current_bit_value : Bool
  current_output_level : Bool
  tick_counter : Nat
  ticks_required : Nat
  bit_index : Nat
  data_iterator : Int
deriving DecidableEq, Repr

/-- Zero-initialized `Transmitter`, as obtained for an object with static
storage duration (the usage pattern in the header's own example, which
declares a global `WS2812B::Transmitter tx;`).  The members `pin` and
`ticks_required` have no default initializer in the class and are therefore
taken at their zero-initialized values; `bit_index = -1` as `uint8_t` is 255. -/
def initial : TxState :=
  { tick_counts := ⟨0, 0, 0, 0, 0⟩
    pin := 0
    bufStart := 0
    bufEnd := 0
    lock_count := 0
    flag_start := false
    flag_resetting := false
    current_bit_value := false
    current_output_level := false
    tick_counter := 0
    ticks_required := 0
    bit_index := 255
    data_iterator := 0 }

/-- Result of `a - b` in `uint32_t` arithmetic, for `a` already reduced mod `2^32`. -/
def sub32 (a b : Nat) : Nat := (a + (2 ^ 32 - b % 2 ^ 32)) % 2 ^ 32

/-- Embeds `is_locked()`: the source literally returns `lock_count == 0`. -/
def is_locked (s : TxState) : Bool := s.lock_count == 0

/-- Embeds `add_lock()`: `++lock_count` on a `uint8_t`. -/
def add_lock (s : TxState) : TxState :=
  { s with lock_count := (s.lock_count + 1) % 256 }

/-- Embeds `remove_lock()`: `--lock_count` on a `uint8_t`. -/
def remove_lock (s : TxState) : TxState :=
  { s with lock_count := (s.lock_count + 255) % 256 }

/-- Embeds `is_done()`: pointer equality `data_iterator == buffer.end`. -/
def is_done (s : TxState) : Bool := s.data_iterator == s.bufEnd

/-- Embeds `start_reset()`.  In the low branch the source computes
`tick_counter -= _get_ticks_required_RES() - ticks_required` in `uint32_t`
arithmetic.  `write_to_port` is an external pin write with no state effect. -/
def start_reset (s : TxState) : TxState :=
  let s1 : TxState := { s with flag_resetting := true }
  let s2 : TxState :=
    if s1.current_output_level then
      { s1 with current_output_level := false, tick_counter := 0 }
    else
      { s1 with
          tick_counter := sub32 s1.tick_counter (sub32 s1.tick_counts.cRES s1.ticks_required) }
  { s2 with ticks_required := s2.tick_counts.cRES }

/-- Embeds `start_data()`.  The source line `bit_index == 23;` is an equality
comparison used as an expression statement — it has no effect — so the model
leaves `bit_index` unchanged.  `data_iterator = buffer.start - 1` is pointer
arithmetic in `Color` units. -/
def start_data (s : TxState) : TxState :=
  { s with flag_resetting := false, ticks_required := 1, tick_counter := 0,
           data_iterator := s.bufStart - 1 }

/-- Embeds `increase_iterators()`: `++bit_index` on a `uint8_t`, wrap at 24. -/
def increase_iterators (s : TxState) : TxState :=
  let bi := (s.bit_index + 1) % 256
  if bi = 24 then
    { s with bit_index := 0, data_iterator := s.data_iterator + 1 }
  else
    { s with bit_index := bi }

/-- Embeds `read_bit()`: `current_bit_value = (process_rgb(*data_iterator) >> bit_index) & 1`. -/
def read_bit (mem : Int → Color) (s : TxState) : TxState :=
  { s with current_bit_value :=
      ((process_rgb (mem s.data_iterator)) >>> s.bit_index) &&& 1 == 1 }

/-- Embeds `update_tick_required()`:
`ticks_required = tick_counts[(uint8_t)current_bit_value * 2 + current_output_level]`. -/
def update_tick_required (s : TxState) : TxState :=
  { s with ticks_required :=
      s.tick_counts.get ((if s.current_bit_value then 1 else 0) * 2
                          + (if s.current_output_level then 1 else 0)) }

/-- Embeds the body of `tick()` for the branch where the threshold is reached
and `flag_resetting` is false (source lines: the `!flag_resetting` block). -/
def tick_transmit (mem : Int → Color) (s : TxState) : TxState × TickResult :=
  if s.current_output_level = false then
    let s1 := increase_iterators s
    if is_done s1 then
      let s2 := start_reset s1
      ({ s2 with flag_start := false }, TickResult.Finished)
    else
      let s3 := read_bit mem s1
      let s4 : TxState := { s3 with current_output_level := !s3.current_output_level }
      (update_tick_required s4, TickResult.Ok)
  else
    let s4 : TxState := { s with current_output_level := !s.current_output_level }
    (update_tick_required s4, TickResult.Ok)

/-- Embeds one activation of `tick()`, with the recursive call
`start_data(); return tick();` abstracted as `rec`. -/
def tick_body (mem : Int → Color) (rec : TxState → TxState × TickResult)
    (s : TxState) : TxState × TickResult :=
  if is_locked s then (s, TickResult.Locked)
  else
    let s1 : TxState := { s with tick_counter := (s.tick_counter + 1) % 2 ^ 32 }
    if s1.tick_counter = s1.ticks_required then
      if s1.flag_resetting = false then
        tick_transmit mem s1
      else if s1.flag_start then
        rec (start_data s1)
      else (s1, TickResult.Ok)
    else (s1, TickResult.Ok)

/-- Embeds `tick()`.  The source recursion `start_data(); return tick();` can
only recurse once: `start_data` clears `flag_resetting`, while the recursion
branch requires `flag_resetting` to be set, so the recursive activation never
recurses again.  `tick` therefore unrolls the recursion twice; the innermost
fallback continuation is unreachable (`tick_body_after_start_data` below
proves the second activation does not depend on it). -/
def tick (mem : Int → Color) (s : TxState) : TxState × TickResult :=
  tick_body mem (tick_body mem (fun s2 => (s2, TickResult.Ok))) s

/-- Embeds `set_ticks_required_0_L`. -/
def set_ticks_required_0_L (s : TxState) (v : Nat) : TxState :=
  { s with tick_counts := { s.tick_counts with c0L := v } }

/-- Embeds `set_ticks_required_0_H`. -/
def set_ticks_required_0_H (s : TxState) (v : Nat) : TxState :=
  { s with tick_counts := { s.tick_counts with c0H := v } }

/-- Embeds `set_ticks_required_1_L`. -/
def set_ticks_required_1_L (s : TxState) (v : Nat) : TxState :=
  { s with tick_counts := { s.tick_counts with c1L := v } }

/-- Embeds `set_ticks_required_1_H`. -/
def set_ticks_required_1_H (s : TxState) (v : Nat) : TxState :=
  { s with tick_counts := { s.tick_counts with c1H := v } }

/-- Embeds `set_ticks_required_RES`. -/
def set_ticks_required_RES (s : TxState) (v : Nat) : TxState :=
  { s with tick_counts := { s.tick_counts with cRES := v } }

/-- Embeds `asynch_reset()`.  Note the source checks `current_output_level`
only after `start_reset()` has already driven the level low, so the
`tick_counter = -1` compensation is evaluated against the updated level. -/
def asynch_reset (s : TxState) : TxState :=
  let s1 := add_lock s
  let s2 :=
    if s1.flag_resetting = false then
      let sr := start_reset s1
      if sr.current_output_level then { sr with tick_counter := 2 ^ 32 - 1 }
      else sr
    else s1
  remove_lock s2

/-- Conversion of a positive `float` quotient to `uint32_t` (truncation toward
zero, which for the positive durations involved is the floor). -/
def uconv (q : ℚ) : Nat := ⌊q⌋.toNat

/-- Embeds `configure(pin, tick_duration_seconds)`.

Modelled from the spec: the bodies of `lock()` and `unlock()` called at the
top and bottom of `configure` are not present in `src/`; per the spec's §5
reentrancy guard (a single nesting counter) they are modelled as the
increment/decrement `add_lock` / `remove_lock` that the source defines for
the same counter.

The source's `pinMode(pin = pin, OUTPUT)` assigns the parameter `pin` (which
shadows the member) to itself, so the member `pin` is left unchanged; the
`pinMode` call itself is an external effect. -/
def configure (s : TxState) (_pinArg : Int) (P : ℚ) : TxState × Bool :=
  let s0 := add_lock s
  let t0L := uconv (T0L / P)
  let t0H := uconv (T0H / P)
  let t1L := uconv (T1L / P)
  let t1H := uconv (T1H / P)
  let tres := uconv (T_RES / P)
  if ¬ check_duration T0L ((t0L : ℚ) * P) ∧ ¬ check_duration T0L (((t0L : ℚ) + 1) * P) then
    (s0, false)
  else
    let t0L := if check_duration T0L ((t0L : ℚ) * P) then t0L else t0L + 1
    if ¬ check_duration T0H ((t0H : ℚ) * P) ∧ ¬ check_duration T0H (((t0H : ℚ) + 1) * P) then
      (s0, false)
    else
      let t0H := if check_duration T0H ((t0H : ℚ) * P) then t0H else t0H + 1
      if ¬ check_duration T1L ((t1L : ℚ) * P) ∧ ¬ check_duration T1L (((t1L : ℚ) + 1) * P) then
        (s0, false)
      else
        let t1L := if check_duration T1L ((t1L : ℚ) * P) then t1L else t1L + 1
        if ¬ check_duration T1H ((t1H : ℚ) * P) ∧ ¬ check_duration T1H (((t1H : ℚ) + 1) * P) then
          (s0, false)
        else
          let t1H := if check_duration T1H ((t1H : ℚ) * P) then t1H else t1H + 1
          let tres := if (tres : ℚ) * P < T_RES then tres + 1 else tres
          let s1 := set_ticks_required_RES s0 tres
          let s2 := asynch_reset s1
          let s3 := set_ticks_required_0_L s2 t0L
          let s4 := set_ticks_required_0_H s3 t0H
          let s5 := set_ticks_required_1_L s4 t1L
          let s6 := set_ticks_required_1_H s5 t1H
          let s7 := remove_lock s6
          (s7, true)

/-- Embeds `start()`. -/
def start (s : TxState) : TxState := { s with flag_start := true }

/-- Embeds `feed(buffer)`: swap in the new buffer view, reset, return the old
view.  The buffer view is the pair of pointers. -/
def feed (s : TxState) (newStart newEnd : Int) : TxState × (Int × Int) :=
  let s1 := add_lock s
  let old := (s1.bufStart, s1.bufEnd)
  let s2 := { s1 with bufStart := newStart, bufEnd := newEnd }
  let s3 := asynch_reset s2
  (remove_lock s3, old)

/-- Iterated `tick`, keeping only the state. -/
def tickIter (mem : Int → Color) : Nat → TxState → TxState
  | 0, s => s
  | n + 1, s => (tick mem (tickIter mem n s)).1

/-- Memory holding the color black everywhere (used where `tick` never reads). -/
def memW : Int → Color := fun _ => ⟨0, 0, 0⟩

/-- Memory with one red pixel at address 100, black elsewhere. -/
def memC3 : Int → Color := fun a => if a = 100 then ⟨255, 0, 0⟩ else ⟨0, 0, 0⟩

/-- State produced by `configure initial 5 (1/16000000)` (16 MHz tick), computed
by hand from the source and certified by `configure_sixteenMHz` below. -/
def sGood : TxState :=
  { tick_counts := ⟨13, 6, 7, 12, 800⟩
    pin := 0
    bufStart := 0
    bufEnd := 0
    lock_count := 0
    flag_start := false
    flag_resetting := true
    current_bit_value := false
    current_output_level := false
    tick_counter := 4294966496
    ticks_required := 800
    bit_index := 255
    data_iterator := 0 }

/-- Configured state with the guard counter at 1, mid low phase of a bit. -/
def sHeld : TxState :=
  { tick_counts := ⟨13, 6, 7, 12, 800⟩
    pin := 5
    bufStart := 100
    bufEnd := 103
    lock_count := 1
    flag_start := false
    flag_resetting := false
    current_bit_value := false
    current_output_level := false
    tick_counter := 4
    ticks_required := 13
    bit_index := 7
    data_iterator := 100 }

/-- Resetting state one tick before the reset threshold, with a start request
pending, a one-pixel buffer at addresses [100, 101) and a stale bit index 5. -/
def sStartPending : TxState :=
  { tick_counts := ⟨13, 6, 7, 12, 800⟩
    pin := 5
    bufStart := 100
    bufEnd := 101
    lock_count := 1
    flag_start := true
    flag_resetting := true
    current_bit_value := false
    current_output_level := false
    tick_counter := 799
    ticks_required := 800
    bit_index := 5
    data_iterator := 200 }

/-- Transmitting state at the end of a bit-0 low phase (counter just reached
the `0L` threshold 13, pin low), the shape at which `tick`'s Finished path
invokes `start_reset` on the already-low branch. -/
def sBitLowEnd : TxState :=
  { tick_counts := ⟨13, 6, 7, 12, 800⟩
    pin := 5
    bufStart := 100
    bufEnd := 103
    lock_count := 1
    flag_start := true
    flag_resetting := false
    current_bit_value := false
    current_output_level := false
    tick_counter := 13
    ticks_required := 13
    bit_index := 23
    data_iterator := 102 }

/-- Transmitting state mid bit with the output level high and no reset active. -/
def sHighMidBit : TxState :=
  { tick_counts := ⟨13, 6, 7, 12, 800⟩
    pin := 5
    bufStart := 100
    bufEnd := 103
    lock_count := 0
    flag_start := false
    flag_resetting := false
    current_bit_value := true
    current_output_level := true
    tick_counter := 5
    ticks_required := 12
    bit_index := 3
    data_iterator := 100 }

/-- Color with distinct channel bytes, used to exercise the payload layout. -/
def colorW : Color := ⟨200, 12, 34⟩

theorem asynch_reset_tick_counts (s : TxState) :
    (asynch_reset s).tick_counts = s.tick_counts := by
  simp only [asynch_reset, start_reset, add_lock, remove_lock, sub32]
  split_ifs <;> rfl

theorem asynch_reset_lock_count (s : TxState) :
    (asynch_reset s).lock_count = s.lock_count % 256 := by
  simp only [asynch_reset, start_reset, add_lock, remove_lock, sub32]
  split_ifs <;> (simp only []; omega)

theorem asynch_reset_flag_resetting (s : TxState) :
    (asynch_reset s).flag_resetting = true := by
  simp only [asynch_reset, start_reset, add_lock, remove_lock, sub32]
  split_ifs with h <;> simp_all

theorem configure_sixteenMHz : configure initial 5 (1 / 16000000) = (sGood, true) := by
  have h0L : uconv (T0L / (1 / 16000000)) = 13 := by norm_num [uconv, T0L]; decide
  have h0H : uconv (T0H / (1 / 16000000)) = 6 := by norm_num [uconv, T0H]; decide
  have h1L : uconv (T1L / (1 / 16000000)) = 7 := by norm_num [uconv, T1L]; decide
  have h1H : uconv (T1H / (1 / 16000000)) = 12 := by norm_num [uconv, T1H]; decide
  have hres : uconv (T_RES / (1 / 16000000)) = 800 := by norm_num [uconv, T_RES]; decide
  have c0L : check_duration T0L (((13 : ℕ) : ℚ) * (1 / 16000000)) := by
    norm_num [check_duration, T0L, T_ERROR]
  have c0H : check_duration T0H (((6 : ℕ) : ℚ) * (1 / 16000000)) := by
    norm_num [check_duration, T0H, T_ERROR]
  have c1L : check_duration T1L (((7 : ℕ) : ℚ) * (1 / 16000000)) := by
    norm_num [check_duration, T1L, T_ERROR]
  have c1H : check_duration T1H (((12 : ℕ) : ℚ) * (1 / 16000000)) := by
    norm_num [check_duration, T1H, T_ERROR]
  have cres : ¬ (((800 : ℕ) : ℚ) * (1 / 16000000) < T_RES) := by norm_num [T_RES]
  simp only [configure, h0L, h0H, h1L, h1H, hres]
  rw [if_neg (fun h => h.1 c0L), if_pos c0L,
      if_neg (fun h => h.1 c0H), if_pos c0H,
      if_neg (fun h => h.1 c1L), if_pos c1L,
      if_neg (fun h => h.1 c1H), if_pos c1H,
      if_neg cres]
  decide

theorem configure_oneMHz_fails (s : TxState) (p : Int) :
    configure s p (1 / 1000000) = (add_lock s, false) := by
  have h0L : uconv (T0L / (1 / 1000000)) = 0 := by norm_num [uconv, T0L]
  have h0H : uconv (T0H / (1 / 1000000)) = 0 := by norm_num [uconv, T0H]
  have c0L1 : check_duration T0L ((((0 : ℕ) : ℚ) + 1) * (1 / 1000000)) := by
    norm_num [check_duration, T0L, T_ERROR]
  have n0L : ¬ check_duration T0L (((0 : ℕ) : ℚ) * (1 / 1000000)) := by
    norm_num [check_duration, T0L, T_ERROR]
  have n0H0 : ¬ check_duration T0H (((0 : ℕ) : ℚ) * (1 / 1000000)) := by
    norm_num [check_duration, T0H, T_ERROR]
  have n0H1 : ¬ check_duration T0H ((((0 : ℕ) : ℚ) + 1) * (1 / 1000000)) := by
    norm_num [check_duration, T0H, T_ERROR]
  simp only [configure, h0L, h0H]
  rw [if_neg (fun h => h.2 c0L1), if_neg n0L, if_pos (And.intro n0H0 n0H1)]

theorem tick_body_after_start_data (mem : Int → Color)
    (r1 r2 : TxState → TxState × TickResult) (x : TxState) :
    tick_body mem r1 (start_data x) = tick_body mem r2 (start_data x) := by
  norm_num [tick_body, start_data]

theorem tick_of_locked (mem : Int → Color) (s : TxState) (h : s.lock_count = 0) :
    tick mem s = (s, TickResult.Locked) := by
  simp [tick, tick_body, is_locked, h]

/-- C1: claimed — with the guard nesting count greater than zero, `tick`
returns Locked and leaves the state unchanged, and with the count equal to
zero it runs the state machine.  The code does the opposite: `is_locked()`
returns `lock_count == 0`, so at `sHeld` (guard held, `lock_count = 1`)
`tick` runs its state-machine logic and mutates the state, while at the
same state with `lock_count = 0` (guard free) `tick` returns Locked and
does nothing. -/
theorem C1_lock_gate_inverted :
    sHeld.lock_count = 1 ∧
    (tick memW sHeld).2 = TickResult.Ok ∧
    (tick memW sHeld).1 ≠ sHeld ∧
    (tick memW { sHeld with lock_count := 0 }).2 = TickResult.Locked ∧
    (tick memW { sHeld with lock_count := 0 }).1 = { sHeld with lock_count := 0 } := by
  decide

/-- C3: claimed — when the reset threshold is reached in Resetting with a
start request pending, the transition clears the start flag and prepares the
bit index / buffer cursor so that the next decoded bit is bit 0 of the first
color.  The code's `start_data` contains `bit_index == 23;` (a comparison,
not an assignment) and never clears `flag_start`: from `sStartPending`
(stale `bit_index = 5`, buffer `[100, 101)`), the tick that takes the
transition leaves the start flag set, advances the stale bit index to 6,
and leaves the cursor at `bufStart - 1`, decoding bit 6 of the color one
slot before the buffer instead of bit 0 of the first color. -/
theorem C3_start_transition_demo :
    sStartPending.flag_resetting = true ∧
    sStartPending.flag_start = true ∧
    (sStartPending.tick_counter + 1) % 2 ^ 32 = sStartPending.ticks_required ∧
    (tick memC3 sStartPending).1.flag_start = true ∧
    (tick memC3 sStartPending).1.bit_index = 6 ∧
    (tick memC3 sStartPending).1.data_iterator = sStartPending.bufStart - 1 ∧
    (tick memC3 sStartPending).1.data_iterator ≠ sStartPending.bufStart := by
  decide

set_option maxRecDepth 40000 in
/-- C4: claimed — entering reset on the already-low branch never corrupts
the counter, and (reset count ≥ every bit-phase count) at most the full
reset tick count of further ticks is needed to reach the threshold.  At
`sBitLowEnd` (the state shape of `tick`'s Finished path: counter just
reached the bit-0 low threshold 13, pin low, reset count 800 ≥ all
bit-phase counts) the source's `tick_counter -= cRES - ticks_required`
leaves the counter at `2^32 - 774`, the threshold is not reached within
800 further ticks, and 1574 ticks — almost twice the full reset count —
are required. -/
theorem C4_reset_budget_overrun :
    sBitLowEnd.current_output_level = false ∧
    sBitLowEnd.ticks_required = sBitLowEnd.tick_counts.c0L ∧
    sBitLowEnd.tick_counts.c0L ≤ sBitLowEnd.tick_counts.cRES ∧
    sBitLowEnd.tick_counts.c0H ≤ sBitLowEnd.tick_counts.cRES ∧
    sBitLowEnd.tick_counts.c1L ≤ sBitLowEnd.tick_counts.cRES ∧
    sBitLowEnd.tick_counts.c1H ≤ sBitLowEnd.tick_counts.cRES ∧
    (start_reset sBitLowEnd).ticks_required = 800 ∧
    (start_reset sBitLowEnd).tick_counter = 2 ^ 32 - 774 ∧
    (∀ k, k < 801 → 0 < k →
      ((start_reset sBitLowEnd).tick_counter + k) % 2 ^ 32 ≠
        (start_reset sBitLowEnd).ticks_required) ∧
    ((start_reset sBitLowEnd).tick_counter + 1574) % 2 ^ 32 =
      (start_reset sBitLowEnd).ticks_required := by
  decide

/-- C5 counterexample: the claim says `asynch_reset` from a non-resetting,
output-high state sets the tick counter one unit below zero (`-1`, i.e.
`2^32 - 1` as `uint32_t`).  In the code the `tick_counter = -1` branch tests
`current_output_level` only after `start_reset()` has already driven the
level low, so it is dead: at `sHighMidBit` the counter is left at 0. -/
theorem C5_counterexample :
    sHighMidBit.flag_resetting = false ∧
    sHighMidBit.current_output_level = true ∧
    (asynch_reset sHighMidBit).tick_counter = 0 ∧
    (asynch_reset sHighMidBit).tick_counter ≠ 2 ^ 32 - 1 := by
  decide

/-- C5 (amended): for every state that is not resetting and has the output
level high, `asynch_reset` drives the level low, enters Resetting, and
leaves the tick counter at zero (the `-1` pre-compensation is unreachable),
so that exactly the full configured reset tick count of subsequent tick
increments elapses before the reset threshold is reached. -/
theorem C5_amended_asynch_reset_from_high (s : TxState)
    (h1 : s.flag_resetting = false) (h2 : s.current_output_level = true)
    (h3 : 0 < s.tick_counts.cRES) (h4 : s.tick_counts.cRES < 2 ^ 32) :
    (asynch_reset s).flag_resetting = true ∧
    (asynch_reset s).current_output_level = false ∧
    (asynch_reset s).tick_counter = 0 ∧
    (asynch_reset s).ticks_required = s.tick_counts.cRES ∧
    ((asynch_reset s).tick_counter + s.tick_counts.cRES) % 2 ^ 32 =
      (asynch_reset s).ticks_required ∧
    ∀ k, 0 < k → k < s.tick_counts.cRES →
      ((asynch_reset s).tick_counter + k) % 2 ^ 32 ≠ (asynch_reset s).ticks_required := by
  simp only [asynch_reset, add_lock, remove_lock, start_reset, sub32, h1, h2]
  norm_num
  refine ⟨by omega, ?_⟩
  intro k hk1 hk2
  omega

theorem C5_amended_witness :
    (asynch_reset sHighMidBit).flag_resetting = true ∧
    (asynch_reset sHighMidBit).current_output_level = false ∧
    (asynch_reset sHighMidBit).tick_counter = 0 ∧
    (asynch_reset sHighMidBit).ticks_required = sHighMidBit.tick_counts.cRES ∧
    ((asynch_reset sHighMidBit).tick_counter + sHighMidBit.tick_counts.cRES) % 2 ^ 32 =
      (asynch_reset sHighMidBit).ticks_required ∧
    ∀ k, 0 < k → k < sHighMidBit.tick_counts.cRES →
      ((asynch_reset sHighMidBit).tick_counter + k) % 2 ^ 32 ≠
        (asynch_reset sHighMidBit).ticks_required :=
  C5_amended_asynch_reset_from_high sHighMidBit (by decide) (by decide) (by decide) (by decide)

/-- C2: for every positive tick period `P`, `configure` succeeds if and only
if, for each of the four bit-phase durations `D`, the realized duration of
the truncated count (`⌊D/P⌋·P`) or of the incremented count (`(⌊D/P⌋+1)·P`)
lies within the tolerance window `[D - T_ERROR, D + T_ERROR]`; otherwise it
fails. -/
theorem C2_configure_success_iff (s : TxState) (p : Int) (P : ℚ) (hP : 0 < P) :
    (configure s p P).2 = true ↔
      ((check_duration T0L ((uconv (T0L / P) : ℚ) * P) ∨
          check_duration T0L (((uconv (T0L / P) : ℚ) + 1) * P)) ∧
        (check_duration T0H ((uconv (T0H / P) : ℚ) * P) ∨
          check_duration T0H (((uconv (T0H / P) : ℚ) + 1) * P)) ∧
        (check_duration T1L ((uconv (T1L / P) : ℚ) * P) ∨
          check_duration T1L (((uconv (T1L / P) : ℚ) + 1) * P)) ∧
        (check_duration T1H ((uconv (T1H / P) : ℚ) * P) ∨
          check_duration T1H (((uconv (T1H / P) : ℚ) + 1) * P))) := by
  simp only [configure]
  split_ifs <;> simp_all

theorem C2_witness : (configure initial 5 (1 / 16000000)).2 = true :=
  (C2_configure_success_iff initial 5 (1 / 16000000) (by norm_num)).mpr (by
    have h0L : uconv (T0L / (1 / 16000000)) = 13 := by norm_num [uconv, T0L]; decide
    have h0H : uconv (T0H / (1 / 16000000)) = 6 := by norm_num [uconv, T0H]; decide
    have h1L : uconv (T1L / (1 / 16000000)) = 7 := by norm_num [uconv, T1L]; decide
    have h1H : uconv (T1H / (1 / 16000000)) = 12 := by norm_num [uconv, T1H]; decide
    rw [h0L, h0H, h1L, h1H]
    exact ⟨Or.inl (by norm_num [check_duration, T0L, T_ERROR]),
           Or.inl (by norm_num [check_duration, T0H, T_ERROR]),
           Or.inl (by norm_num [check_duration, T1L, T_ERROR]),
           Or.inl (by norm_num [check_duration, T1H, T_ERROR])⟩)

/-- C7: whenever `configure` returns failure it leaves the five Timing Table
entries and the member `pin` exactly as they were before the call (every
failure path returns before any `set_ticks_required_*` or `pinMode`). -/
theorem C7_configure_failure_preserves (s : TxState) (p : Int) (P : ℚ)
    (s' : TxState) (h : configure s p P = (s', false)) :
    s'.tick_counts = s.tick_counts ∧ s'.pin = s.pin := by
  simp only [configure] at h
  split_ifs at h <;> simp at h <;>
    (subst h; exact ⟨rfl, rfl⟩)

theorem C7_witness :
    (add_lock initial).tick_counts = initial.tick_counts ∧
    (add_lock initial).pin = initial.pin :=
  C7_configure_failure_preserves initial 5 (1 / 1000000) (add_lock initial)
    (configure_oneMHz_fails initial 5)

set_option maxRecDepth 40000 in
/-- C10 counterexample: the claim says the nesting counter after a failed
`configure` is strictly greater than before, for every starting state.  The
counter is a `uint8_t`: starting at 255, a failing `configure` wraps it to
0, which is not greater than 255. -/
theorem C10_counterexample :
    (configure { initial with lock_count := 255 } 5 (1 / 1000000)).2 = false ∧
    (configure { initial with lock_count := 255 } 5 (1 / 1000000)).1.lock_count = 0 ∧
    ¬ ({ initial with lock_count := 255 } : TxState).lock_count <
        (configure { initial with lock_count := 255 } 5 (1 / 1000000)).1.lock_count := by
  rw [configure_oneMHz_fails]
  decide

/-- C10 (amended): when `configure` returns failure the nesting counter is
left at `(old + 1) mod 256` — the lock acquired on entry is not released on
any failure path — which is strictly greater than the old value whenever the
old value is below 255 (at 255 the `uint8_t` increment wraps to 0). -/
theorem C10_amended_lock_kept_on_failure (s : TxState) (p : Int) (P : ℚ)
    (s' : TxState) (h : configure s p P = (s', false)) :
    s'.lock_count = (s.lock_count + 1) % 256 ∧
    (s.lock_count < 255 → s.lock_count < s'.lock_count) := by
  simp only [configure] at h
  split_ifs at h <;> simp at h <;>
    (subst h
     refine ⟨rfl, fun hlt => ?_⟩
     simp only [add_lock]
     omega)

theorem C10_amended_witness :
    (add_lock initial).lock_count = (initial.lock_count + 1) % 256 ∧
    (initial.lock_count < 255 → initial.lock_count < (add_lock initial).lock_count) :=
  C10_amended_lock_kept_on_failure initial 5 (1 / 1000000) (add_lock initial)
    (configure_oneMHz_fails initial 5)

/-- C8: for every Color, the payload produced by `process_rgb` (which feeds
the `(payload >> bit_index) & 1` walk of `read_bit`) carries the green byte
in bits 0-7, the red byte in bits 8-15, the blue byte in bits 16-23 — each
least-significant-bit first — and its top 8 bits are zero. -/
theorem C8_payload_grb_lsb_first (c : Color) :
    (∀ i : ℕ, i < 8 →
        ((process_rgb c >>> i) &&& 1 = (c.g.val >>> i) &&& 1 ∧
         (process_rgb c >>> (8 + i)) &&& 1 = (c.r.val >>> i) &&& 1 ∧
         (process_rgb c >>> (16 + i)) &&& 1 = (c.b.val >>> i) &&& 1)) ∧
    process_rgb c < 2 ^ 24 := by
  obtain ⟨⟨r, hr⟩, ⟨g, hg⟩, ⟨b, hb⟩⟩ := c
  simp only [process_rgb, Color.into_32_bit, Nat.shiftRight_eq_div_pow,
    Nat.and_one_is_mod]
  constructor
  · intro i hi
    interval_cases i <;> norm_num <;> omega
  · norm_num
    omega

theorem C8_witness :
    ((process_rgb colorW >>> (8 + 1)) &&& 1 = (colorW.r.val >>> 1) &&& 1) ∧
    process_rgb colorW < 2 ^ 24 :=
  ⟨((C8_payload_grb_lsb_first colorW).1 1 (by norm_num)).2.1,
   (C8_payload_grb_lsb_first colorW).2⟩

theorem configure_success_state (s : TxState) (p : Int) (P : ℚ) (s' : TxState)
    (h : configure s p P = (s', true)) :
    s'.lock_count = s.lock_count % 256 ∧ s'.flag_resetting = true ∧
    s'.tick_counts.cRES =
      (if (uconv (T_RES / P) : ℚ) * P < T_RES then uconv (T_RES / P) + 1
       else uconv (T_RES / P)) := by
  simp only [configure] at h
  split_ifs at h ⊢ <;> simp at h <;>
    (obtain ⟨rfl, -⟩ := h
     refine ⟨?_, ?_, ?_⟩ <;>
       simp_all [remove_lock, add_lock, set_ticks_required_RES,
         set_ticks_required_0_L, set_ticks_required_0_H, set_ticks_required_1_L,
         set_ticks_required_1_H, asynch_reset_lock_count,
         asynch_reset_flag_resetting, asynch_reset_tick_counts] <;>
       omega)

/-- C9: after any successful `configure` on a freshly zero-initialized
Transmitter, with no buffer fed and `start` never called, no number of
`tick` invocations ever returns Finished, and the machine stays in
Resetting throughout.  (With the nesting counter back at zero after
`configure`, the inverted `is_locked` makes every such `tick` return
Locked without touching the state.) -/
theorem C9_no_finished_without_feed (p : Int) (P : ℚ) (s' : TxState)
    (h : configure initial p P = (s', true)) (mem : Int → Color) (n : ℕ) :
    (tick mem (tickIter mem n s')).2 ≠ TickResult.Finished ∧
    (tickIter mem n s').flag_resetting = true := by
  obtain ⟨hl, hr, -⟩ := configure_success_state initial p P s' h
  have hl0 : s'.lock_count = 0 := by simpa [initial] using hl
  have hstep : tick mem s' = (s', TickResult.Locked) := tick_of_locked mem s' hl0
  have hstay : ∀ m, tickIter mem m s' = s' := by
    intro m
    induction m with
    | zero => rfl
    | succ k ih => simp [tickIter, ih, hstep]
  refine ⟨?_, ?_⟩
  · rw [hstay n, hstep]
    simp
  · rw [hstay n]
    exact hr

theorem C9_witness :
    (tick memW (tickIter memW 3 sGood)).2 ≠ TickResult.Finished ∧
    (tickIter memW 3 sGood).flag_resetting = true :=
  C9_no_finished_without_feed 5 (1 / 16000000) sGood configure_sixteenMHz memW 3

/-- C6: for every positive tick period `P`, when `configure` succeeds the
installed reset tick count `C` satisfies `C·P ≥ T_RES`, and `C` is the
smallest natural number with that property. -/
theorem C6_reset_count_minimal (s : TxState) (p : Int) (P : ℚ) (s' : TxState)
    (hP : 0 < P) (h : configure s p P = (s', true)) :
    T_RES ≤ (s'.tick_counts.cRES : ℚ) * P ∧
    ∀ m : ℕ, T_RES ≤ (m : ℚ) * P → s'.tick_counts.cRES ≤ m := by
  obtain ⟨-, -, hres⟩ := configure_success_state s p P s' h
  rw [hres]
  have hq : (0 : ℚ) < T_RES / P := div_pos (by norm_num [T_RES]) hP
  have hnn : (0 : ℤ) ≤ ⌊T_RES / P⌋ := Int.floor_nonneg.mpr hq.le
  have hcast : ((uconv (T_RES / P) : ℕ) : ℚ) = ((⌊T_RES / P⌋ : ℤ) : ℚ) := by
    rw [uconv]
    exact_mod_cast congrArg (fun z : ℤ => (z : ℚ)) (Int.toNat_of_nonneg hnn)
  have hfl : ((uconv (T_RES / P) : ℕ) : ℚ) ≤ T_RES / P := by
    rw [hcast]; exact Int.floor_le _
  have hlt : T_RES / P < ((uconv (T_RES / P) : ℕ) : ℚ) + 1 := by
    rw [hcast]; exact_mod_cast Int.lt_floor_add_one (T_RES / P)
  have hTP : T_RES / P * P = T_RES := div_mul_cancel₀ _ hP.ne'
  split_ifs with hc
  · constructor
    · have hmul : T_RES / P * P < (((uconv (T_RES / P) : ℕ) : ℚ) + 1) * P :=
        mul_lt_mul_of_pos_right hlt hP
      rw [hTP] at hmul
      push_cast
      linarith
    · intro m hm
      by_contra hcon
      push_neg at hcon
      have hmle : (m : ℚ) ≤ ((uconv (T_RES / P) : ℕ) : ℚ) := by
        exact_mod_cast Nat.lt_succ_iff.mp hcon
      have : (m : ℚ) * P ≤ ((uconv (T_RES / P) : ℕ) : ℚ) * P :=
        mul_le_mul_of_nonneg_right hmle hP.le
      linarith
  · constructor
    · push_neg at hc
      exact hc
    · intro m hm
      have h1 : ((uconv (T_RES / P) : ℕ) : ℚ) * P ≤ T_RES / P * P :=
        mul_le_mul_of_nonneg_right hfl hP.le
      have h2 : T_RES / P * P ≤ (m : ℚ) * P := by
        rw [hTP]; exact hm
      have h3 : ((uconv (T_RES / P) : ℕ) : ℚ) ≤ (m : ℚ) :=
        le_of_mul_le_mul_right (h1.trans h2) hP
      exact_mod_cast h3

theorem C6_witness :
    T_RES ≤ (sGood.tick_counts.cRES : ℚ) * (1 / 16000000) ∧
    ∀ m : ℕ, T_RES ≤ (m : ℚ) * (1 / 16000000) → sGood.tick_counts.cRES ≤ m :=
  C6_reset_count_minimal initial 5 (1 / 16000000) sGood (by norm_num)
    configure_sixteenMHz

end WS2812B
